import Mathlib

/-!
# Verification of the statping `handlers` core

Shallow embedding of `src/handlers/handlers.go`: the Auth Resolver
(`IsReadAuthenticated`, `IsFullAuthenticated`, `ScopeName`, `IsAdmin`,
`IsUser`) and the Server Bootstrapper (`RunHTTPServer`, `StopHTTPServer`).

The helper predicates `hasSetupEnv`, `hasAPIQuery`, `hasAuthorizationHeader`
and the token decoder `getJwtToken`, as well as the listener start functions,
are repository code outside the excerpt; they are modelled from the spec
(each such definition carries a doc comment saying so).  Everything else is a
direct translation of the Go source.
-/

namespace Statping

/-- Decoded token payload (spec §3 "Credential Claim"):
`{admin: bool, expiry: timestamp, issuedSubject: string}`. -/
structure Claim where
  admin : Bool
  expiry : Nat
  issuedSubject : String
deriving DecidableEq, Repr

/-- Modelled from the spec: the deterministic signature ("mac") a correctly
keyed signer produces over a claim.  The concrete formula is immaterial; the
resolver only compares a presented signature against this value
(spec §3 invariant: "a claim is trusted only if signature verification and
expiry check both pass"). -/
def mac (key : List Nat) (c : Claim) : List Nat :=
  key.map (fun k => (k + c.expiry + (if c.admin then 1 else 0)) % 256)

/-- A session token as carried by the `statping_auth` cookie: a payload plus
signature bytes (spec §6 "Session cookie: value is a signed token"). -/
structure Token where
  payload : Claim
  sig : List Nat
deriving DecidableEq, Repr

/-- The parts of an HTTP request the Auth Resolver consults: the
`statping_auth` cookie, and the outcomes of the API-key query-parameter and
Authorization-header credential checks. -/
structure Request where
  cookie : Option Token
  apiQuery : Bool
  authHeader : Bool
deriving DecidableEq, Repr

/-- Process-wide read-only context: the setup/test environment signal, the
current time used for expiry checks, and the signing key (`jwtKey`). -/
structure Env where
  setupEnv : Bool
  now : Nat
  jwtKey : List Nat
deriving DecidableEq, Repr

/-- Modelled from the spec: `hasSetupEnv` (not in the excerpt) reports whether
the process environment signals test/setup mode (spec §4.1 step 1). -/
def hasSetupEnv (e : Env) : Bool :=
  e.setupEnv

/-- Modelled from the spec: `hasAPIQuery` (not in the excerpt) reports whether
the request carries a valid API key as a query argument (spec §4.1 step 2). -/
def hasAPIQuery (r : Request) : Bool :=
  r.apiQuery

/-- Modelled from the spec: `hasAuthorizationHeader` (not in the excerpt)
reports whether a valid credential is present in the standard Authorization
header (spec §4.1 step 3). -/
def hasAuthorizationHeader (r : Request) : Bool :=
  r.authHeader

/-- Modelled from the spec: `getJwtToken` (not in the excerpt) extracts the
signed token from the `statping_auth` cookie and verifies it; it fails when
the cookie is absent, the signature does not verify under `jwtKey`, or the
claim is expired (spec §4.1 step 4 and §3 invariant).  Failure is an error
value, never an exception. -/
def getJwtToken (e : Env) (r : Request) : Except Unit Claim :=
  match r.cookie with
  | none => Except.error ()
  | some tok =>
    if tok.sig = mac e.jwtKey tok.payload then
      if e.now < tok.payload.expiry then Except.ok tok.payload
      else Except.error ()
    else Except.error ()

/-- Modelled from the spec: `Claim.Valid` (the jwt library's claim
re-validation called by `IsUser`) checks that the claim is currently valid,
i.e. non-expired (spec §4.1: "independently re-validated (not just decoded)
as currently valid"). -/
def Claim.Valid (e : Env) (c : Claim) : Bool :=
  decide (e.now < c.expiry)

/-- `IsFullAuthenticated` from handlers.go: setup bypass, API query and
Authorization header each short-circuit to true; otherwise the token is
decoded and the claim's `Admin` flag is returned (decode failure gives
false). -/
def IsFullAuthenticated (e : Env) (r : Request) : Bool :=
  if hasSetupEnv e then true
  else if hasAPIQuery r then true
  else if hasAuthorizationHeader r then true
  else
    match getJwtToken e r with
    | Except.error _ => false
    | Except.ok claim => claim.admin

/-- `IsReadAuthenticated` from handlers.go: setup bypass, API query and
Authorization header each short-circuit to true; otherwise it defers to
`IsFullAuthenticated`. -/
def IsReadAuthenticated (e : Env) (r : Request) : Bool :=
  if hasSetupEnv e then true
  else if hasAPIQuery r then true
  else if hasAuthorizationHeader r then true
  else IsFullAuthenticated e r

/-- `ScopeName` from handlers.go: "admin" for API query or Authorization
header; otherwise decode the token — on failure "", else "admin" when the
claim's `Admin` flag is set and "user" otherwise. -/
def ScopeName (e : Env) (r : Request) : String :=
  if hasAPIQuery r then "admin"
  else if hasAuthorizationHeader r then "admin"
  else
    match getJwtToken e r with
    | Except.error _ => ""
    | Except.ok claim => if claim.admin then "admin" else "user"

/-- `IsAdmin` from handlers.go: decode the token — on failure false, else the
claim's `Admin` flag.  No bypass, API-key or header path. -/
def IsAdmin (e : Env) (r : Request) : Bool :=
  match getJwtToken e r with
  | Except.error _ => false
  | Except.ok claim => claim.admin

/-- `IsUser` from handlers.go: setup bypass short-circuits to true; otherwise
the token is decoded and the claim re-validated (`tk.Valid()`); any failure
gives false. -/
def IsUser (e : Env) (r : Request) : Bool :=
  if hasSetupEnv e then true
  else
    match getJwtToken e r with
    | Except.error _ => false
    | Except.ok tk => if Claim.Valid e tk then true else false

/-- Transport Mode (spec §3): `{Plain, StaticTLS, AutoTLS}`. -/
inductive TransportMode where
  | Plain
  | StaticTLS
  | AutoTLS
deriving DecidableEq, Repr

/-- The configuration keys `RunHTTPServer` consumes via `utils.Params`. -/
structure Params where
  disableHTTP : Bool
  serverIP : String
  serverPort : Nat
  letsencryptEnable : Bool
deriving DecidableEq, Repr

/-- Outcome of the filesystem probes for `server.key` / `server.crt` in the
working directory (`utils.FileExists`). -/
structure FileSystem where
  keyExists : Bool
  certExists : Bool
deriving DecidableEq, Repr

/-- The package-level mutable globals of handlers.go touched by the
bootstrapper: the `usingSSL` flag, the cached router (counted as a build
generation, bumped by `Router()`), the authentication-cookie generation
(bumped by `resetCookies()`, invalidating previously issued cookies), and
the `httpServer` listener handle (`none` when no listener is held). -/
structure ServerState where
  usingSSL : Bool
  routerGen : Nat
  cookieGen : Nat
  httpServer : Option Nat
deriving DecidableEq, Repr

/-- Everything observable about one `RunHTTPServer` call: the returned error
(`none` models Go's `nil`), the final globals, whether the filesystem was
probed for key/cert, and which transport mode a listener was started in
(`none` when no start function was invoked). -/
structure RunHTTPServerResult where
  ret : Option String
  state : ServerState
  probedFilesystem : Bool
  startedMode : Option TransportMode
deriving DecidableEq, Repr

/-- `RunHTTPServer` from handlers.go.  The listener start functions
(`startLetsEncryptServer`, `startSSLServer`, `startServer`) are outside the
excerpt; modelled from the spec, each returns the underlying listener's
bind/serve outcome, supplied here as `startOutcome` (spec §6: "returns an
error if and only if the underlying listener fails to bind or serve").
The body mirrors the source: early nil return on `DISABLE_HTTP`; probe
`server.key`/`server.crt`; set `usingSSL` when both exist; rebuild the
router and reset cookies; then dispatch on `LETSENCRYPT_ENABLE`, `usingSSL`,
or neither. -/
def RunHTTPServer (p : Params) (fs : FileSystem) (s : ServerState)
    (startOutcome : TransportMode → Option String) : RunHTTPServerResult :=
  if p.disableHTTP then
    { ret := none, state := s, probedFilesystem := false, startedMode := none }
  else
    let key := fs.keyExists
    let cert := fs.certExists
    let s1 := if key && cert then { s with usingSSL := true } else s
    let s2 := { s1 with routerGen := s1.routerGen + 1, cookieGen := s1.cookieGen + 1 }
    if p.letsencryptEnable then
      { ret := startOutcome TransportMode.AutoTLS, state := s2,
        probedFilesystem := true, startedMode := some TransportMode.AutoTLS }
    else if s2.usingSSL then
      { ret := startOutcome TransportMode.StaticTLS, state := s2,
        probedFilesystem := true, startedMode := some TransportMode.StaticTLS }
    else
      { ret := startOutcome TransportMode.Plain, state := s2,
        probedFilesystem := true, startedMode := some TransportMode.Plain }

/-- `StopHTTPServer` from handlers.go: its entire body is
`log.Infoln("Stopping HTTP Server")`.  Result: the emitted log lines and the
globals after the call. -/
def StopHTTPServer (err : Option String) (s : ServerState) :
    List String × ServerState :=
  (["Stopping HTTP Server"], s)

/-! ## Concrete fixtures used by witnesses and counterexamples -/

/-- A non-admin claim, unexpired at `envMain.now`. -/
def claimUser : Claim := { admin := false, expiry := 100, issuedSubject := "user1" }

/-- An admin claim, unexpired at `envMain.now`. -/
def claimAdmin : Claim := { admin := true, expiry := 100, issuedSubject := "root" }

/-- Production-like context: setup mode off. -/
def envMain : Env := { setupEnv := false, now := 10, jwtKey := [3, 7] }

/-- Context with the setup-mode bypass active. -/
def envSetup : Env := { setupEnv := true, now := 10, jwtKey := [3, 7] }

/-- A correctly signed non-admin token under `envMain.jwtKey`. -/
def tokUser : Token := { payload := claimUser, sig := mac [3, 7] claimUser }

/-- A correctly signed admin token under `envMain.jwtKey`. -/
def tokAdmin : Token := { payload := claimAdmin, sig := mac [3, 7] claimAdmin }

/-- `tokUser` with the first signature byte altered. -/
def tokTampered : Token := { payload := claimUser, sig := (mac [3, 7] claimUser).set 0 9 }

/-- A request with no cookie, no API key and no Authorization header. -/
def reqEmpty : Request := { cookie := none, apiQuery := false, authHeader := false }

/-- A request carrying only the valid non-admin session token. -/
def reqUser : Request := { cookie := some tokUser, apiQuery := false, authHeader := false }

/-- A request carrying only the valid admin session token. -/
def reqAdmin : Request := { cookie := some tokAdmin, apiQuery := false, authHeader := false }

/-- A request carrying only the tampered token. -/
def reqTampered : Request :=
  { cookie := some tokTampered, apiQuery := false, authHeader := false }

/-- Configuration with the HTTP listener disabled. -/
def pDisabled : Params :=
  { disableHTTP := true, serverIP := "0.0.0.0", serverPort := 8080,
    letsencryptEnable := false }

/-- Configuration with the listener enabled and no automatic provisioning. -/
def pEnabled : Params :=
  { disableHTTP := false, serverIP := "0.0.0.0", serverPort := 8080,
    letsencryptEnable := false }

/-- Working directory holding `server.key` but not `server.crt`. -/
def fsKeyOnly : FileSystem := { keyExists := true, certExists := false }

/-- Working directory holding neither file. -/
def fsNone : FileSystem := { keyExists := false, certExists := false }

/-- Zero-valued globals, as at process startup. -/
def sFresh : ServerState :=
  { usingSSL := false, routerGen := 0, cookieGen := 0, httpServer := none }

/-- Globals of a process whose listener is up (handle held). -/
def sRunning : ServerState :=
  { usingSSL := false, routerGen := 1, cookieGen := 1, httpServer := some 1 }

/-- Listener behaviour in which every bind/serve succeeds. -/
def startNone : TransportMode → Option String := fun _ => none

/-! ## Claims -/

/-- C1 (counterexample): a request carrying a valid, unexpired, correctly
signed non-admin token and no other credential, with setup mode disabled, on
which `IsFullAuthenticated` and `IsReadAuthenticated` return `false` — the
claim asserts they return `true`. -/
theorem c1_counterexample :
    hasSetupEnv envMain = false ∧ hasAPIQuery reqUser = false ∧
    hasAuthorizationHeader reqUser = false ∧
    getJwtToken envMain reqUser = Except.ok claimUser ∧ claimUser.admin = false ∧
    ¬(IsFullAuthenticated envMain reqUser = true ∧
      IsReadAuthenticated envMain reqUser = true) :=
  ⟨rfl, rfl, rfl, rfl, rfl, by decide⟩

/-- C1 (amended): for every request with a valid non-admin token and no setup
bypass, API key, or Authorization header, `IsAdmin` is `false` and
`ScopeName` is `"user"`, but `IsFullAuthenticated` and `IsReadAuthenticated`
are `false` — both return the token claim's admin flag on this path. -/
theorem c1_valid_nonadmin_token (e : Env) (r : Request) (c : Claim)
    (hs : hasSetupEnv e = false) (ha : hasAPIQuery r = false)
    (hh : hasAuthorizationHeader r = false)
    (ht : getJwtToken e r = Except.ok c) (hadm : c.admin = false) :
    IsAdmin e r = false ∧ ScopeName e r = "user" ∧
    IsFullAuthenticated e r = false ∧ IsReadAuthenticated e r = false := by
  simp [IsAdmin, ScopeName, IsFullAuthenticated, IsReadAuthenticated,
    hs, ha, hh, ht, hadm]

/-- C1 witness: the amended statement at the concrete non-admin session. -/
theorem c1_valid_nonadmin_token_witness :
    IsAdmin envMain reqUser = false ∧ ScopeName envMain reqUser = "user" ∧
    IsFullAuthenticated envMain reqUser = false ∧
    IsReadAuthenticated envMain reqUser = false :=
  c1_valid_nonadmin_token envMain reqUser claimUser rfl rfl rfl rfl rfl

/-- C2: with the setup-mode bypass active, `IsReadAuthenticated`,
`IsFullAuthenticated` and `IsUser` are `true` for every request, while
`IsAdmin` is `true` exactly when the request carries a valid token whose
admin claim is `true`. -/
theorem c2_setup_bypass (e : Env) (r : Request) (h : hasSetupEnv e = true) :
    IsReadAuthenticated e r = true ∧ IsFullAuthenticated e r = true ∧
    IsUser e r = true ∧
    (IsAdmin e r = true ↔ ∃ c, getJwtToken e r = Except.ok c ∧ c.admin = true) := by
  refine ⟨by simp [IsReadAuthenticated, h], by simp [IsFullAuthenticated, h],
    by simp [IsUser, h], ?_⟩
  unfold IsAdmin
  cases hj : getJwtToken e r with
  | error u => exact ⟨fun h' => Bool.noConfusion h',
      fun ⟨c, hc, _⟩ => Except.noConfusion hc⟩
  | ok c =>
    constructor
    · intro h'
      exact ⟨c, rfl, h'⟩
    · rintro ⟨c', hc', ha'⟩
      cases hc'
      exact ha'

/-- C2 witness: the bypass context with a bare request — the three queries
are `true` while `IsAdmin` matches the (absent) admin token. -/
theorem c2_setup_bypass_witness :
    hasSetupEnv envSetup = true ∧
    (IsReadAuthenticated envSetup reqEmpty = true ∧
     IsFullAuthenticated envSetup reqEmpty = true ∧
     IsUser envSetup reqEmpty = true ∧
     (IsAdmin envSetup reqEmpty = true ↔
       ∃ c, getJwtToken envSetup reqEmpty = Except.ok c ∧ c.admin = true)) :=
  ⟨rfl, c2_setup_bypass envSetup reqEmpty rfl⟩

/-- C3: at startup (listener enabled, `usingSSL` still zero-valued) the
transport mode is resolved as: `LETSENCRYPT_ENABLE` gives `AutoTLS`
regardless of the files; otherwise both `server.key` and `server.crt`
present give `StaticTLS`; otherwise (including exactly one file present)
`Plain`. -/
theorem c3_mode_selection (p : Params) (fs : FileSystem) (s : ServerState)
    (start : TransportMode → Option String)
    (hd : p.disableHTTP = false) (hssl : s.usingSSL = false) :
    (RunHTTPServer p fs s start).startedMode = some
      (if p.letsencryptEnable then TransportMode.AutoTLS
        else if fs.keyExists && fs.certExists then TransportMode.StaticTLS
        else TransportMode.Plain) := by
  cases hle : p.letsencryptEnable <;> cases hk : fs.keyExists <;>
    cases hc : fs.certExists <;>
    simp [RunHTTPServer, hd, hssl, hk, hc, hle]

/-- C3 witness: with automatic provisioning off and only `server.key`
present, the resolved mode is `Plain`. -/
theorem c3_mode_selection_witness :
    pEnabled.disableHTTP = false ∧ sFresh.usingSSL = false ∧
    pEnabled.letsencryptEnable = false ∧ fsKeyOnly.keyExists = true ∧
    fsKeyOnly.certExists = false ∧
    (RunHTTPServer pEnabled fsKeyOnly sFresh startNone).startedMode =
      some TransportMode.Plain :=
  ⟨rfl, rfl, rfl, rfl, rfl,
    c3_mode_selection pEnabled fsKeyOnly sFresh startNone rfl rfl⟩

/-- C4: (i) on every request with no bypass, API key or Authorization header
whose token extraction/verification fails, `ScopeName` is `""` and all four
boolean queries are `false`, with no error value escaping any query; (ii)
altering any single byte of a correctly signed token's signature makes
verification fail. -/
theorem c4_invalid_token_downgrade :
    (∀ (e : Env) (r : Request), hasSetupEnv e = false → hasAPIQuery r = false →
      hasAuthorizationHeader r = false → getJwtToken e r = Except.error () →
      ScopeName e r = "" ∧ IsReadAuthenticated e r = false ∧
      IsFullAuthenticated e r = false ∧ IsAdmin e r = false ∧
      IsUser e r = false) ∧
    (∀ (e : Env) (tok : Token) (i : Nat) (hi : i < tok.sig.length) (b : Nat)
      (r : Request), tok.sig = mac e.jwtKey tok.payload → b ≠ tok.sig[i] →
      getJwtToken e
          { r with cookie := some { payload := tok.payload, sig := tok.sig.set i b } } =
        Except.error ()) := by
  constructor
  · intro e r hs ha hh ht
    simp [ScopeName, IsReadAuthenticated, IsFullAuthenticated, IsAdmin, IsUser,
      hs, ha, hh, ht]
  · intro e tok i hi b r hsig hb
    have hne : tok.sig.set i b ≠ mac e.jwtKey tok.payload := by
      rw [← hsig]
      intro hEq
      apply hb
      have h1 : (tok.sig.set i b)[i]? = some b := by
        rw [List.getElem?_set_self (by simpa using hi)]
      rw [hEq, List.getElem?_eq_getElem hi] at h1
      exact (Option.some.injEq _ _ ▸ h1).symm
    simp [getJwtToken, hne]

/-- C4 witness: a single-byte-tampered copy of the valid non-admin token
fails verification, and on the request carrying it every query is
`false`/empty. -/
theorem c4_invalid_token_downgrade_witness :
    getJwtToken envMain
        { reqUser with
          cookie := some { payload := tokUser.payload, sig := tokUser.sig.set 0 9 } } =
      Except.error () ∧
    getJwtToken envMain reqTampered = Except.error () ∧
    ScopeName envMain reqTampered = "" ∧
    IsReadAuthenticated envMain reqTampered = false ∧
    IsFullAuthenticated envMain reqTampered = false ∧
    IsAdmin envMain reqTampered = false ∧ IsUser envMain reqTampered = false :=
  ⟨c4_invalid_token_downgrade.2 envMain tokUser 0 (by decide) 9 reqUser rfl
      (by decide),
    rfl, c4_invalid_token_downgrade.1 envMain reqTampered rfl rfl rfl rfl⟩

/-- C5: on every request carrying a valid token whose admin claim is `true`,
`IsAdmin`, `IsFullAuthenticated` and `IsReadAuthenticated` are `true` and
`ScopeName` is `"admin"`. -/
theorem c5_admin_token_agreement (e : Env) (r : Request) (c : Claim)
    (ht : getJwtToken e r = Except.ok c) (hadm : c.admin = true) :
    IsAdmin e r = true ∧ IsFullAuthenticated e r = true ∧
    IsReadAuthenticated e r = true ∧ ScopeName e r = "admin" := by
  have hfull : IsFullAuthenticated e r = true := by
    cases h1 : hasSetupEnv e <;> cases h2 : hasAPIQuery r <;>
      cases h3 : hasAuthorizationHeader r <;>
      simp [IsFullAuthenticated, h1, h2, h3, ht, hadm]
  have hread : IsReadAuthenticated e r = true := by
    cases h1 : hasSetupEnv e <;> cases h2 : hasAPIQuery r <;>
      cases h3 : hasAuthorizationHeader r <;>
      simp [IsReadAuthenticated, h1, h2, h3, hfull]
  have hscope : ScopeName e r = "admin" := by
    cases h2 : hasAPIQuery r <;> cases h3 : hasAuthorizationHeader r <;>
      simp [ScopeName, h2, h3, ht, hadm]
  exact ⟨by simp [IsAdmin, ht, hadm], hfull, hread, hscope⟩

/-- C5 witness: the four queries agree on the concrete admin session. -/
theorem c5_admin_token_agreement_witness :
    IsAdmin envMain reqAdmin = true ∧ IsFullAuthenticated envMain reqAdmin = true ∧
    IsReadAuthenticated envMain reqAdmin = true ∧
    ScopeName envMain reqAdmin = "admin" :=
  c5_admin_token_agreement envMain reqAdmin claimAdmin rfl rfl

/-- C6: on every request with no cookie, no API key and no Authorization
header, with setup mode disabled, all four boolean queries are `false` and
`ScopeName` is `""`. -/
theorem c6_no_credentials (e : Env) (r : Request)
    (hs : hasSetupEnv e = false) (ha : hasAPIQuery r = false)
    (hh : hasAuthorizationHeader r = false) (hc : r.cookie = none) :
    IsReadAuthenticated e r = false ∧ IsFullAuthenticated e r = false ∧
    IsAdmin e r = false ∧ IsUser e r = false ∧ ScopeName e r = "" := by
  have ht : getJwtToken e r = Except.error () := by simp [getJwtToken, hc]
  simp [IsReadAuthenticated, IsFullAuthenticated, IsAdmin, IsUser, ScopeName,
    hs, ha, hh, ht]

/-- C6 witness: the bare request in the production context. -/
theorem c6_no_credentials_witness :
    IsReadAuthenticated envMain reqEmpty = false ∧
    IsFullAuthenticated envMain reqEmpty = false ∧
    IsAdmin envMain reqEmpty = false ∧ IsUser envMain reqEmpty = false ∧
    ScopeName envMain reqEmpty = "" :=
  c6_no_credentials envMain reqEmpty rfl rfl rfl rfl

/-- C7: `RunHTTPServer` returns a non-nil error exactly when a listener was
started and that listener's bind/serve failed; with `DISABLE_HTTP` set it
returns nil and starts no listener. -/
theorem c7_return_contract (p : Params) (fs : FileSystem) (s : ServerState)
    (start : TransportMode → Option String) :
    ((RunHTTPServer p fs s start).ret ≠ none ↔
      ∃ m, (RunHTTPServer p fs s start).startedMode = some m ∧ start m ≠ none) ∧
    (p.disableHTTP = true →
      (RunHTTPServer p fs s start).ret = none ∧
      (RunHTTPServer p fs s start).startedMode = none) := by
  cases hd : p.disableHTTP <;> cases hle : p.letsencryptEnable <;>
    cases hk : fs.keyExists <;> cases hc : fs.certExists <;>
    cases hs : s.usingSSL <;>
    simp [RunHTTPServer, hd, hle, hk, hc, hs]

/-- C7 witness: with `DISABLE_HTTP` set, the call returns nil and no
listener is started. -/
theorem c7_return_contract_witness :
    pDisabled.disableHTTP = true ∧
    ((RunHTTPServer pDisabled fsNone sFresh startNone).ret = none ∧
     (RunHTTPServer pDisabled fsNone sFresh startNone).startedMode = none) :=
  ⟨rfl, (c7_return_contract pDisabled fsNone sFresh startNone).2 rfl⟩

/-- C8 (counterexample): with a listener handle held, `StopHTTPServer` emits
its log line but the handle is still held afterwards — the listener is not
released, contradicting the claim. -/
theorem c8_counterexample :
    sRunning.httpServer = some 1 ∧
    (StopHTTPServer none sRunning).1 = ["Stopping HTTP Server"] ∧
    (StopHTTPServer none sRunning).2.httpServer ≠ none := by
  refine ⟨rfl, rfl, by decide⟩

/-- C8 (amended): `StopHTTPServer` logs its intent and does nothing else: the
listener handle, and all other server globals, are returned unchanged — the
listener is not released. -/
theorem c8_stop_logs_only (err : Option String) (s : ServerState) :
    (StopHTTPServer err s).1 = ["Stopping HTTP Server"] ∧
    (StopHTTPServer err s).2.httpServer = s.httpServer ∧
    (StopHTTPServer err s).2 = s :=
  ⟨rfl, rfl, rfl⟩

/-- C9: with the setup bypass active but no API key, Authorization header or
decodable token, `ScopeName` is `""` (it never consults the bypass) even
though `IsReadAuthenticated` and `IsFullAuthenticated` are `true`. -/
theorem c9_scope_ignores_bypass (e : Env) (r : Request)
    (hs : hasSetupEnv e = true) (ha : hasAPIQuery r = false)
    (hh : hasAuthorizationHeader r = false)
    (ht : getJwtToken e r = Except.error ()) :
    ScopeName e r = "" ∧ IsReadAuthenticated e r = true ∧
    IsFullAuthenticated e r = true := by
  simp [ScopeName, IsReadAuthenticated, IsFullAuthenticated, hs, ha, hh, ht]

/-- C9 witness: the bare request under the active bypass. -/
theorem c9_scope_ignores_bypass_witness :
    ScopeName envSetup reqEmpty = "" ∧
    IsReadAuthenticated envSetup reqEmpty = true ∧
    IsFullAuthenticated envSetup reqEmpty = true :=
  c9_scope_ignores_bypass envSetup reqEmpty rfl rfl rfl rfl

/-- C10: with `DISABLE_HTTP` set, `RunHTTPServer` returns nil and has no
other effect: the filesystem is not probed, no listener is started, and the
globals — `usingSSL`, the router generation and the cookie generation — are
unchanged, so pre-existing session cookies are not invalidated. -/
theorem c10_disable_http_frame (p : Params) (fs : FileSystem) (s : ServerState)
    (start : TransportMode → Option String) (hd : p.disableHTTP = true) :
    (RunHTTPServer p fs s start).ret = none ∧
    (RunHTTPServer p fs s start).probedFilesystem = false ∧
    (RunHTTPServer p fs s start).startedMode = none ∧
    (RunHTTPServer p fs s start).state = s := by
  simp [RunHTTPServer, hd]

/-- C10 witness: a disabled start over running-process globals leaves them
untouched. -/
theorem c10_disable_http_frame_witness :
    (RunHTTPServer pDisabled fsKeyOnly sRunning startNone).ret = none ∧
    (RunHTTPServer pDisabled fsKeyOnly sRunning startNone).probedFilesystem = false ∧
    (RunHTTPServer pDisabled fsKeyOnly sRunning startNone).startedMode = none ∧
    (RunHTTPServer pDisabled fsKeyOnly sRunning startNone).state = sRunning :=
  c10_disable_http_frame pDisabled fsKeyOnly sRunning startNone rfl

end Statping
